import Mathlib

/-!
Shallow embedding of the data-normalization and presentation layer of the
stock-dashboard application (source: `src/app.py`), together with theorems
settling the specification's claims about it.

Dynamic Python values that reach the formatter are modelled by `PyVal`
(a number, a string, or `None`); operations that can raise a Python
exception are modelled in `Except Unit`.  Tabular statements are modelled
by `DataFrame` (a list of labelled rows plus a list of column labels),
matching the pandas features the source uses: `.empty`, `.index`,
`.columns`, `.loc`.
-/

/-- A dynamically-typed Python value as it occurs in the `info` metadata
mapping: a number (Python int/float, modelled as a rational), a string,
or `None`. -/
inductive PyVal where
  | num (q : ℚ)
  | str (s : String)
  | pynone
deriving DecidableEq, Repr

/-- The `'N/A'` default used throughout `display_key_metrics`. -/
def naVal : PyVal := PyVal.str "N/A"

/-- Python `dict.get(key, default)`: the stored value when the key is
present (even when that value is `None`), the default otherwise. -/
def pyGet (v : Option PyVal) (dflt : PyVal) : PyVal :=
  v.getD dflt

/-- Python `v != 'N/A'` for a dynamic value: false exactly for the string
`"N/A"`. -/
def pyNeNA : PyVal → Bool
  | PyVal.str s => s ≠ "N/A"
  | _ => true

/-- Left-pad a string with zeros to the given length. -/
def padZeros (len : Nat) (s : String) : String :=
  String.mk (List.replicate (len - s.length) '0') ++ s

/-- Insert a comma before every third digit, walking the reversed digit
list (`i` counts digits already emitted). -/
def group3go : List Char → Nat → List Char
  | [], _ => []
  | c :: r, i =>
    (if 0 < i ∧ i % 3 = 0 then [','] ++ [c] else [c]) ++ group3go r (i + 1)

/-- Thousands grouping of a digit string, as Python's `','` format option
does for the integer part. -/
def group3 (s : String) : String :=
  String.mk (group3go s.data.reverse 0).reverse

/-- Sign flag, integer part and fractional part (scaled by `10 ^ prec`) of
a rational rounded to `prec` decimal places.  `⌊q * 10 ^ prec + 1 / 2⌋` is
computed as a floor division on the numerator and denominator so that the
result evaluates by kernel reduction. -/
def fixedParts (prec : Nat) (q : ℚ) : Bool × Nat × Nat :=
  let n : Int := Int.fdiv (2 * q.num * (10 : Int) ^ prec + (q.den : Int)) (2 * (q.den : Int))
  (n < 0, n.natAbs / 10 ^ prec, n.natAbs % 10 ^ prec)

/-- Python's fixed-point format `f"{q:.prec f}"` on an exact rational:
round to `prec` decimals and print with exactly `prec` fractional
digits. -/
def fmtFixed (prec : Nat) (q : ℚ) : String :=
  let P := fixedParts prec q
  (if P.1 then "-" else "") ++ toString P.2.1 ++
    (if prec = 0 then "" else "." ++ padZeros prec (toString P.2.2))

/-- Python's grouped fixed-point format `f"{q:,.prec f}"`: like `fmtFixed`
with thousands separators in the integer part. -/
def fmtGroupFixed (prec : Nat) (q : ℚ) : String :=
  let P := fixedParts prec q
  (if P.1 then "-" else "") ++ group3 (toString P.2.1) ++
    (if prec = 0 then "" else "." ++ padZeros prec (toString P.2.2))

/-- Decimal digits of the fractional part `r / d` (with `r < d`), emitted
by long division until the remainder is zero or the fuel runs out. -/
def fracDigitsGo : Nat → Nat → Nat → List Char
  | 0, _, _ => []
  | fuel + 1, r, d =>
    if r = 0 then []
    else Char.ofNat (48 + r * 10 / d) :: fracDigitsGo fuel (r * 10 % d) d

/-- Python's bare grouped format `f"{q:,}"`: thousands-separated integer
part, fractional digits only when the value is not an integer. -/
def fmtThousands (q : ℚ) : String :=
  let sgn := if q.num < 0 then "-" else ""
  let na := q.num.natAbs
  if q.den = 1 then sgn ++ group3 (toString na)
  else
    sgn ++ group3 (toString (na / q.den)) ++ "." ++
      String.mk (fracDigitsGo 50 (na % q.den) q.den)

/-! ## Key-metrics formatter (`display_key_metrics`, src/app.py lines 242-291)

Each metric block of the source reads
`v = info.get(key, 'N/A'); if v != 'N/A': v = f"...{v}..."; st.metric(label, v)`.
Formatting a present value succeeds only when the value is a number; a
present string (other than the `'N/A'` marker itself) or a present `None`
makes the f-string raise (`ValueError` / `TypeError`), which the source
does not catch. -/

/-- One metric block: format the fetched dynamic value with the given
numeric renderer, raising when the value is present but not numeric. -/
def fmtMetricNum (v : PyVal) (fmt : ℚ → String) : Except Unit String :=
  match v with
  | PyVal.str s => if s = "N/A" then Except.ok s else Except.error ()
  | PyVal.num q => Except.ok (fmt q)
  | PyVal.pynone => Except.error ()

/-- The day-range block (src/app.py lines 269-275): the range string
`f"${day_low:.2f} - ${day_high:.2f}"` when both values pass the
`!= 'N/A'` test, the `'N/A'` marker otherwise. -/
def dayRangeStep (day_high day_low : PyVal) : Except Unit String :=
  if pyNeNA day_high && pyNeNA day_low then
    match day_low, day_high with
    | PyVal.num lo, PyVal.num hi =>
        Except.ok ("$" ++ fmtFixed 2 lo ++ " - $" ++ fmtFixed 2 hi)
    | _, _ => Except.error ()
  else Except.ok "N/A"

/-- The company-metadata mapping `info`, restricted to the keys
`display_key_metrics` reads.  An absent key is `none`; a present key
carries an arbitrary dynamic value. -/
structure Info where
  marketCap : Option PyVal
  trailingPE : Option PyVal
  currentPrice : Option PyVal
  regularMarketPrice : Option PyVal
  dividendYield : Option PyVal
  dayHigh : Option PyVal
  dayLow : Option PyVal
  bookValue : Option PyVal
  volume : Option PyVal
  beta : Option PyVal
deriving DecidableEq, Repr

/-- Run the metric blocks in source order, collecting the `(label, value)`
pairs shown by `st.metric`.  The first raising block aborts the rest of
the panel (the source has no try/except around the blocks); the flag
records whether an exception escaped. -/
def runMetrics : List (Except Unit (String × String)) → List (String × String) × Bool
  | [] => ([], false)
  | Except.ok m :: rest =>
    let P := runMetrics rest
    (m :: P.1, P.2)
  | Except.error _ :: _ => ([], true)

/-- `display_key_metrics` (src/app.py lines 242-291): the eight metric
blocks in their execution order (column 1 through column 4). -/
def display_key_metrics (info : Info) : List (String × String) × Bool :=
  runMetrics
    [ (fmtMetricNum (pyGet info.marketCap naVal)
        (fun q => "$" ++ fmtGroupFixed 0 q)).map (fun s => ("Market Cap", s)),
      (fmtMetricNum (pyGet info.trailingPE naVal)
        (fun q => fmtFixed 2 q)).map (fun s => ("P/E Ratio", s)),
      (fmtMetricNum (pyGet info.currentPrice (pyGet info.regularMarketPrice naVal))
        (fun q => "$" ++ fmtFixed 2 q)).map (fun s => ("Current Price", s)),
      (fmtMetricNum (pyGet info.dividendYield naVal)
        (fun q => fmtFixed 2 (q * 100) ++ "%")).map (fun s => ("Dividend Yield", s)),
      (dayRangeStep (pyGet info.dayHigh naVal) (pyGet info.dayLow naVal)).map
        (fun s => ("Day Range", s)),
      (fmtMetricNum (pyGet info.bookValue naVal)
        (fun q => "$" ++ fmtFixed 2 q)).map (fun s => ("Book Value", s)),
      (fmtMetricNum (pyGet info.volume naVal)
        (fun q => fmtThousands q)).map (fun s => ("Volume", s)),
      (fmtMetricNum (pyGet info.beta naVal)
        (fun q => fmtFixed 2 q)).map (fun s => ("Beta", s)) ]

/-! ## Tabular statements -/

/-- A pandas `DataFrame` as the source uses it: labelled rows of numeric
values plus a list of column labels.  `rows.map Prod.fst` is the row
index. -/
structure DataFrame where
  rows : List (String × List ℚ)
  cols : List String
deriving DecidableEq, Repr

/-- `pd.DataFrame()`, the default for a failed statement sub-fetch. -/
def emptyDF : DataFrame := { rows := [], cols := [] }

/-- pandas `df.empty`: true when either axis has length zero. -/
def DataFrame.isEmpty (d : DataFrame) : Bool :=
  d.rows.isEmpty || d.cols.isEmpty

/-- pandas `df.index` restricted to the row labels. -/
def DataFrame.rowNames (d : DataFrame) : List String :=
  d.rows.map Prod.fst

/-! ## Market data gateway (`get_financial_data`, src/app.py lines 122-150) -/

/-- Outcome of one statement sub-fetch `func()`: a returned value (a table
or `None`) or a raised exception. -/
inductive SubResult where
  | returns (v : Option DataFrame)
  | throws
deriving DecidableEq, Repr

/-- `safe_get_data` (src/app.py lines 129-134): return the fetched value
when it is not `None`, the default otherwise; any exception also yields
the default. -/
def safe_get_data : SubResult → DataFrame → DataFrame
  | SubResult.returns (some d), _ => d
  | SubResult.returns none, dflt => dflt
  | SubResult.throws, dflt => dflt

/-- The upstream outcomes a single `get_financial_data(ticker)` call can
observe: whether the surrounding try-block raises outside the wrapped
sub-fetches, the nine per-statement sub-fetch outcomes, and the metadata
mapping. -/
structure FetchEnv where
  topThrows : Bool
  financials : SubResult
  quarterly_financials : SubResult
  income_stmt : SubResult
  quarterly_income_stmt : SubResult
  balance_sheet : SubResult
  quarterly_balance_sheet : SubResult
  cash_flow : SubResult
  quarterly_cash_flow : SubResult
  actions : SubResult
  info : Info
deriving DecidableEq, Repr

/-- The dictionary `get_financial_data` returns on success: nine statement
tables plus the metadata mapping. -/
structure FinancialData where
  financials : DataFrame
  quarterly_financials : DataFrame
  income_stmt : DataFrame
  quarterly_income_stmt : DataFrame
  balance_sheet : DataFrame
  quarterly_balance_sheet : DataFrame
  cash_flow : DataFrame
  quarterly_cash_flow : DataFrame
  actions : DataFrame
  info : Info
deriving DecidableEq, Repr

/-- `get_financial_data` (src/app.py lines 122-150): `None` when the
top-level try-block raises, otherwise the bundle with every statement
obtained through `safe_get_data` with the empty-table default. -/
def get_financial_data (env : FetchEnv) : Option FinancialData :=
  if env.topThrows then none
  else
    some
      { financials := safe_get_data env.financials emptyDF
        quarterly_financials := safe_get_data env.quarterly_financials emptyDF
        income_stmt := safe_get_data env.income_stmt emptyDF
        quarterly_income_stmt := safe_get_data env.quarterly_income_stmt emptyDF
        balance_sheet := safe_get_data env.balance_sheet emptyDF
        quarterly_balance_sheet := safe_get_data env.quarterly_balance_sheet emptyDF
        cash_flow := safe_get_data env.cash_flow emptyDF
        quarterly_cash_flow := safe_get_data env.quarterly_cash_flow emptyDF
        actions := safe_get_data env.actions emptyDF
        info := env.info }

/-- `get_stock_data` (src/app.py lines 111-120): the history table on
success; on an exception, an error is displayed (the flag) and `None` is
returned. -/
def get_stock_data : Except Unit DataFrame → Option DataFrame × Bool
  | Except.ok d => (some d, false)
  | Except.error _ => (none, true)

/-! ## Chart builder (`plot_financial_metrics`, src/app.py lines 194-240) -/

/-- One bar trace of the financial-performance figure: x values (the
statement's period columns), y values (the line item's row) and the trace
name. -/
structure Trace where
  x : List String
  y : List ℚ
  name : String
deriving DecidableEq, Repr

/-- The 2x2 financial-performance figure: one optional bar trace per
cell. -/
structure FinChart where
  annualRevenue : Option Trace
  annualNetIncome : Option Trace
  quarterlyRevenue : Option Trace
  quarterlyNetIncome : Option Trace
deriving DecidableEq, Repr

/-- `df.loc[key]` guarded by `key in df.index`: the first row labelled
`key`. -/
def DataFrame.locRow (d : DataFrame) (key : String) : Option (List ℚ) :=
  match d.rows.find? (fun r => r.1 == key) with
  | some r => some r.2
  | none => none

/-- `plot_financial_metrics` (src/app.py lines 194-240): `None` when the
annual income statement is empty; otherwise the 2x2 figure, each annual
cell populated when its line item is in the annual income statement's
index, each quarterly cell populated when the quarterly income statement
is non-empty and its line item is in that statement's index. -/
def plot_financial_metrics (fd : FinancialData) : Option FinChart :=
  if fd.income_stmt.isEmpty then none
  else
    let ist := fd.income_stmt
    let qis := fd.quarterly_income_stmt
    some
      { annualRevenue :=
          (ist.locRow "Total Revenue").map (fun y => ⟨ist.cols, y, "Annual Revenue"⟩)
        annualNetIncome :=
          (ist.locRow "Net Income").map (fun y => ⟨ist.cols, y, "Annual Net Income"⟩)
        quarterlyRevenue :=
          if qis.isEmpty then none
          else (qis.locRow "Total Revenue").map
            (fun y => ⟨qis.cols, y, "Quarterly Revenue"⟩)
        quarterlyNetIncome :=
          if qis.isEmpty then none
          else (qis.locRow "Net Income").map
            (fun y => ⟨qis.cols, y, "Quarterly Net Income"⟩) }

/-! ## Table display (`safe_display_dataframe`, src/app.py lines 293-305) -/

/-- What one `safe_display_dataframe` call puts on the page: the table
itself, the "no data available" warning placeholder, or (when rendering
raised) the caught-error placeholder for that table. -/
inductive DisplayOutcome where
  | shown
  | warned (msg : String)
  | errored (title : String)
deriving DecidableEq, Repr

/-- `safe_display_dataframe` (src/app.py lines 293-305): show the table
when it is present, non-empty and has both axes non-empty; otherwise the
warning placeholder; an exception raised by `st.dataframe` (modelled by
`render`) is caught and converted to the error placeholder. -/
def safe_display_dataframe (render : DataFrame → Except Unit Unit)
    (data : Option DataFrame) (title warning_msg : String) : DisplayOutcome :=
  match data with
  | none => DisplayOutcome.warned warning_msg
  | some d =>
    if d.isEmpty then DisplayOutcome.warned warning_msg
    else if 0 < d.cols.length && 0 < d.rows.length then
      match render d with
      | Except.ok _ => DisplayOutcome.shown
      | Except.error _ => DisplayOutcome.errored title
    else DisplayOutcome.warned warning_msg

/-- `display_all_financial_data` (src/app.py lines 307-353): the eight
statement tables in their fixed page order, each through
`safe_display_dataframe`. -/
def display_all_financial_data (render : DataFrame → Except Unit Unit)
    (fd : FinancialData) : List DisplayOutcome :=
  [ safe_display_dataframe render (some fd.financials)
      "Annual Financials" "No annual financial data available.",
    safe_display_dataframe render (some fd.income_stmt)
      "Annual Income Statement" "No Annual Income Statement data available.",
    safe_display_dataframe render (some fd.balance_sheet)
      "Annual Balance Sheet" "No Annual Balance Sheet data available.",
    safe_display_dataframe render (some fd.cash_flow)
      "Annual Cash Flow" "No Annual Cash Flow data available.",
    safe_display_dataframe render (some fd.quarterly_financials)
      "Quarterly Financials" "No quarterly financial data available.",
    safe_display_dataframe render (some fd.quarterly_income_stmt)
      "Quarterly Income Statement" "No Quarterly Income Statement data available.",
    safe_display_dataframe render (some fd.quarterly_balance_sheet)
      "Quarterly Balance Sheet" "No Quarterly Balance Sheet data available.",
    safe_display_dataframe render (some fd.quarterly_cash_flow)
      "Quarterly Cash Flow" "No Quarterly Cash Flow data available." ]

/-! ## Ticker universe provider (`get_sp500_tickers`, src/app.py lines 53-68) -/

/-- The hard-coded fallback universe (src/app.py lines 62-68). -/
def sp500FallbackTickers : List String :=
  [ "AAPL", "MSFT", "AMZN", "GOOGL", "GOOG", "TSLA", "META", "NVDA", "BRK-B", "UNH",
    "JNJ", "JPM", "V", "PG", "MA", "HD", "CVX", "ABBV", "BAC", "PFE",
    "KO", "AVGO", "PEP", "TMO", "COST", "WMT", "DIS", "ABT", "MRK", "VZ",
    "ADBE", "NFLX", "NKE", "CRM", "XOM", "ACN", "DHR", "BMY", "LIN", "TXN",
    "ORCL", "WFC", "NEE", "QCOM", "PM", "RTX", "UPS", "SBUX", "T", "LOW" ]

/-- `get_sp500_tickers` (src/app.py lines 53-68): the remote symbol list
when the fetch-and-parse succeeds, the hard-coded fallback on any
exception.  The flag records whether any user-visible error was shown
(the source shows none on either path). -/
def get_sp500_tickers : Except Unit (List String) → List String × Bool
  | Except.ok syms => (syms, false)
  | Except.error _ => (sp500FallbackTickers, false)

/-! ## View controller (`get_query_params` and `main`, src/app.py) -/

/-- `get_query_params` (src/app.py lines 72-81): read the two URL
parameters with defaults `"GOOGL"` and `"1y"`; if parameter access itself
raises, fall back to `("AAPL", "1y")`. -/
def get_query_params : Except Unit (Option String × Option String) → String × String
  | Except.ok (t, p) => (t.getD "GOOGL", p.getD "1y")
  | Except.error _ => ("AAPL", "1y")

/-- The sidebar period table (src/app.py lines 386-393). -/
def periodOptions : List (String × String) :=
  [ ("1 Month", "1mo"), ("3 Months", "3mo"), ("6 Months", "6mo"),
    ("1 Year", "1y"), ("2 Years", "2y"), ("5 Years", "5y") ]

/-- The period-index search (src/app.py lines 396-400): the first entry
whose code matches, defaulting to 3 ("1 Year"). -/
def periodIndexOf (p : String) : Nat :=
  match periodOptions.findIdx? (fun e => e.2 == p) with
  | some i => i
  | none => 3

/-- `SP500_TICKERS.index(url_ticker)` under `try/except ValueError`
(src/app.py lines 372-375): the position of the ticker, 0 when absent. -/
def tickerIndexOf (univ : List String) (t : String) : Nat :=
  match univ.findIdx? (fun s => s == t) with
  | some i => i
  | none => 0

/-- View-state initialization performed by `main` (src/app.py lines
355-409): read the URL parameters, replace a ticker outside the universe
by `'AAPL'`, then resolve both selector indices and the selected values
(the selectbox yields `options[index]`). -/
def initViewState (univ : List String)
    (qp : Except Unit (Option String × Option String)) :
    String × Nat × String × Nat :=
  let tp := get_query_params qp
  let t1 := if univ.contains tp.1 then tp.1 else "AAPL"
  let ti := tickerIndexOf univ t1
  let pi := periodIndexOf tp.2
  (univ.getD ti "", ti, (periodOptions.getD pi ("", "")).2, pi)

/-- The sections `main` (src/app.py lines 420-477) can put on the page
after the two fetches. -/
inductive PageSection where
  | companyInfo
  | keyMetrics
  | priceChart
  | financialChart
  | detailedData
  | actionsSection
  | fetchErrorMsg
deriving DecidableEq, Repr

/-- The main render pass (src/app.py lines 427-474): when both fetches
return data, the fixed sequence of sections, with the financial chart
only when `plot_financial_metrics` returns a figure and the
dividends/splits section only when the actions table is non-empty; when
either fetch returned `None`, only the top-level error message. -/
def renderMain (hist : Option DataFrame) (fin : Option FinancialData) :
    List PageSection :=
  match hist, fin with
  | some _, some fd =>
    [PageSection.companyInfo, PageSection.keyMetrics, PageSection.priceChart]
      ++ (match plot_financial_metrics fd with
          | some _ => [PageSection.financialChart]
          | none => [])
      ++ [PageSection.detailedData]
      ++ (if fd.actions.isEmpty then [] else [PageSection.actionsSection])
  | _, _ => [PageSection.fetchErrorMsg]

/-! ## Helper lemmas -/

/-- A rendered day range starts with a dollar sign, so it can never equal
the `'N/A'` marker. -/
theorem rangeString_ne_na (a b : String) : "$" ++ a ++ " - $" ++ b ≠ "N/A" := by
  intro h
  have hl := congrArg String.length h
  have h1 : ("$" : String).length = 1 := rfl
  have h2 : (" - $" : String).length = 4 := rfl
  have h3 : ("N/A" : String).length = 3 := rfl
  simp [String.length_append, h1, h2, h3] at hl
  omega

/-- `List.contains` is false exactly on non-members. -/
theorem contains_eq_false_of_not_mem {t : String} {l : List String}
    (h : t ∉ l) : l.contains t = false := by
  cases hcc : l.contains t with
  | true => exact absurd (by simpa using hcc) h
  | false => rfl

/-- A guarded `df.loc` lookup succeeds exactly when the key is in the row
index. -/
theorem locRow_isSome_iff (d : DataFrame) (k : String) :
    (d.locRow k).isSome = true ↔ k ∈ d.rowNames := by
  have hbase : (d.rows.find? (fun r => r.1 == k)).isSome = true ↔
      k ∈ d.rows.map Prod.fst := by
    simp [List.find?_isSome]
  rw [DataFrame.rowNames, ← hbase, DataFrame.locRow]
  cases d.rows.find? (fun r => r.1 == k) <;> simp

/-- A non-empty table has both axes of positive length. -/
theorem isEmpty_false_iff (d : DataFrame) :
    d.isEmpty = false ↔ 0 < d.rows.length ∧ 0 < d.cols.length := by
  rw [DataFrame.isEmpty]
  simp [List.isEmpty_iff, List.length_pos]

/-! ## Claim theorems -/

/-- C1: for the day-range metric, the formatter renders the
currency-formatted string `"$low - $high"` if and only if both `dayHigh`
and `dayLow` are present in the metadata; if either one (or both) is
absent it renders the fixed `'N/A'` marker — for all four combinations of
presence. -/
theorem day_range_iff_both_present (dh dl : Option ℚ) :
    dayRangeStep (pyGet (dh.map PyVal.num) naVal) (pyGet (dl.map PyVal.num) naVal)
      = Except.ok (match dh, dl with
          | some hi, some lo => "$" ++ fmtFixed 2 lo ++ " - $" ++ fmtFixed 2 hi
          | _, _ => "N/A") ∧
    (dayRangeStep (pyGet (dh.map PyVal.num) naVal) (pyGet (dl.map PyVal.num) naVal)
        = Except.ok "N/A" ↔ (dh = none ∨ dl = none)) := by
  cases dh <;> cases dl <;>
    simp [dayRangeStep, pyGet, naVal, pyNeNA, rangeString_ne_na]

/-- C7 counterexample: when the price-history fetch fails (`hist_data is
None`) but the statement bundle is available, `main` renders only the
top-level error message; the company-info section — which does not depend
on price history — is not rendered, contrary to the claim. -/
theorem price_failure_counterexample :
    renderMain none (some
      { financials := emptyDF, quarterly_financials := emptyDF,
        income_stmt := emptyDF, quarterly_income_stmt := emptyDF,
        balance_sheet := emptyDF, quarterly_balance_sheet := emptyDF,
        cash_flow := emptyDF, quarterly_cash_flow := emptyDF,
        actions := emptyDF,
        info := ⟨none, none, none, none, none, none, none, none, none, none⟩ })
      = [PageSection.fetchErrorMsg] ∧
    PageSection.companyInfo ∉ renderMain none (some
      { financials := emptyDF, quarterly_financials := emptyDF,
        income_stmt := emptyDF, quarterly_income_stmt := emptyDF,
        balance_sheet := emptyDF, quarterly_balance_sheet := emptyDF,
        cash_flow := emptyDF, quarterly_cash_flow := emptyDF,
        actions := emptyDF,
        info := ⟨none, none, none, none, none, none, none, none, none, none⟩ }) := by
  decide

/-- C7 (amended): when the price-history fetch fails, `get_stock_data`
displays a user-visible error and returns `None`, and `main` then renders
only the top-level error message, suppressing every data section —
including the sections that do not depend on price history. -/
theorem price_failure_suppresses_all (fin : Option FinancialData) :
    get_stock_data (Except.error ()) = (none, true) ∧
    renderMain none fin = [PageSection.fetchErrorMsg] := by
  cases fin <;> exact ⟨rfl, rfl⟩

/-- C8: the dividends/splits section appears on the rendered page exactly
when the corporate-actions table is non-empty; an empty actions table
leaves the section out entirely. -/
theorem actions_section_iff_nonempty (hist : DataFrame) (fd : FinancialData) :
    PageSection.actionsSection ∈ renderMain (some hist) (some fd) ↔
      fd.actions.isEmpty = false := by
  cases hA : fd.actions.isEmpty <;>
    cases hP : plot_financial_metrics fd <;>
      simp [renderMain, hA, hP]

/-- C9: the ticker universe provider returns the remote symbol list when
the remote fetch succeeds; on any failure it returns the fixed hard-coded
fallback list of 50 well-known symbols, with no user-visible error signal
on either path. -/
theorem universe_fallback_silent (l : List String) :
    get_sp500_tickers (Except.ok l) = (l, false) ∧
    get_sp500_tickers (Except.error ()) = (sp500FallbackTickers, false) ∧
    sp500FallbackTickers.length = 50 :=
  ⟨rfl, rfl, rfl⟩

/-- C3: a statement table is shown exactly when it is present, non-empty
with at least one row and one column, and rendering succeeds; otherwise
the "no data available" placeholder appears; a rendering exception is
caught and converted to the error placeholder for that table only, and
`display_all_financial_data` always produces an outcome for every one of
the eight tables. -/
theorem table_display_policy (render : DataFrame → Except Unit Unit)
    (d : DataFrame) (t w : String) (fd : FinancialData) :
    safe_display_dataframe render none t w = DisplayOutcome.warned w ∧
    safe_display_dataframe render (some d) t w =
      (if d.isEmpty then DisplayOutcome.warned w
       else match render d with
         | Except.ok _ => DisplayOutcome.shown
         | Except.error _ => DisplayOutcome.errored t) ∧
    (safe_display_dataframe render (some d) t w = DisplayOutcome.shown ↔
      0 < d.rows.length ∧ 0 < d.cols.length ∧ render d = Except.ok ()) ∧
    (display_all_financial_data render fd).length = 8 := by
  refine ⟨rfl, ?_, ?_, rfl⟩
  · rw [safe_display_dataframe]
    cases hE : d.isEmpty
    · have hpos := (isEmpty_false_iff d).mp hE
      simp [hE, hpos.1, hpos.2]
    · simp [hE]
  · rw [safe_display_dataframe]
    cases hE : d.isEmpty
    · have hpos := (isEmpty_false_iff d).mp hE
      cases hr : render d with
      | ok u => cases u; simp [hE, hpos.1, hpos.2, hr]
      | error e => cases e; simp [hE, hpos.1, hpos.2, hr]
    · rw [DataFrame.isEmpty] at hE
      simp only [hE]
      simp only [Bool.or_eq_true, List.isEmpty_iff] at hE
      constructor
      · intro hcontra
        exact absurd hcontra (by simp)
      · rintro ⟨h1, h2, -⟩
        rcases hE with hE | hE <;> simp [hE] at h1 h2

/-- C4: `plot_financial_metrics` returns no figure exactly when the annual
income statement is empty; otherwise each annual cell is populated exactly
when its line item is in the annual income statement's row index, and each
quarterly cell exactly when the quarterly income statement is non-empty
and its line item is in that statement's row index — a missing line item
leaves the cell empty without failing the chart. -/
theorem financials_chart_cells (fd : FinancialData) :
    (plot_financial_metrics fd = none ↔ fd.income_stmt.isEmpty = true) ∧
    (∀ c, plot_financial_metrics fd = some c →
      (c.annualRevenue.isSome = true ↔
        "Total Revenue" ∈ fd.income_stmt.rowNames) ∧
      (c.annualNetIncome.isSome = true ↔
        "Net Income" ∈ fd.income_stmt.rowNames) ∧
      (c.quarterlyRevenue.isSome = true ↔
        fd.quarterly_income_stmt.isEmpty = false ∧
          "Total Revenue" ∈ fd.quarterly_income_stmt.rowNames) ∧
      (c.quarterlyNetIncome.isSome = true ↔
        fd.quarterly_income_stmt.isEmpty = false ∧
          "Net Income" ∈ fd.quarterly_income_stmt.rowNames)) := by
  constructor
  · rw [plot_financial_metrics]
    cases hI : fd.income_stmt.isEmpty <;> simp [hI]
  · intro c hc
    rw [plot_financial_metrics] at hc
    cases hI : fd.income_stmt.isEmpty
    · rw [hI] at hc
      simp only [Bool.false_eq_true, if_false, Option.some.injEq] at hc
      subst hc
      cases hQ : fd.quarterly_income_stmt.isEmpty <;>
        refine ⟨?_, ?_, ?_, ?_⟩ <;>
          simp [hQ, Option.isSome_map, locRow_isSome_iff]
    · rw [hI] at hc
      simp at hc
  
/-- The concrete statement bundle used to witness the chart-builder
theorem: an annual income statement holding one `Total Revenue` row with
one column, and nothing else. -/
def fdChartW : FinancialData :=
  { financials := emptyDF, quarterly_financials := emptyDF,
    income_stmt := { rows := [("Total Revenue", [10])], cols := ["2023"] },
    quarterly_income_stmt := emptyDF, balance_sheet := emptyDF,
    quarterly_balance_sheet := emptyDF, cash_flow := emptyDF,
    quarterly_cash_flow := emptyDF, actions := emptyDF,
    info := ⟨none, none, none, none, none, none, none, none, none, none⟩ }

/-- The figure `plot_financial_metrics` builds for `fdChartW`. -/
def chartW : FinChart :=
  { annualRevenue := some ⟨["2023"], [10], "Annual Revenue"⟩,
    annualNetIncome := none, quarterlyRevenue := none,
    quarterlyNetIncome := none }

/-- C4 witness: on a bundle whose annual income statement has a
`Total Revenue` row and one column, the chart is non-null with the
top-left cell populated. -/
theorem financials_chart_cells_witness :
    plot_financial_metrics fdChartW = some chartW ∧
    chartW.annualRevenue.isSome = true := by
  refine ⟨by decide, ?_⟩
  exact ((financials_chart_cells fdChartW).2 chartW (by decide)).1.mpr (by decide)

/-- C5: `get_financial_data` yields `None` exactly when the top-level
try-block raises; on success every statement entry is determined solely by
its own sub-fetch through `safe_get_data`, and a sub-fetch that raises or
returns `None` degrades to the empty table for that statement only. -/
theorem statement_bundle_isolation (env : FetchEnv) :
    (get_financial_data env = none ↔ env.topThrows = true) ∧
    (∀ fd, get_financial_data env = some fd →
      fd.financials = safe_get_data env.financials emptyDF ∧
      fd.quarterly_financials = safe_get_data env.quarterly_financials emptyDF ∧
      fd.income_stmt = safe_get_data env.income_stmt emptyDF ∧
      fd.quarterly_income_stmt = safe_get_data env.quarterly_income_stmt emptyDF ∧
      fd.balance_sheet = safe_get_data env.balance_sheet emptyDF ∧
      fd.quarterly_balance_sheet = safe_get_data env.quarterly_balance_sheet emptyDF ∧
      fd.cash_flow = safe_get_data env.cash_flow emptyDF ∧
      fd.quarterly_cash_flow = safe_get_data env.quarterly_cash_flow emptyDF ∧
      fd.actions = safe_get_data env.actions emptyDF ∧
      fd.info = env.info) ∧
    safe_get_data SubResult.throws emptyDF = emptyDF ∧
    safe_get_data (SubResult.returns none) emptyDF = emptyDF := by
  refine ⟨?_, ?_, rfl, rfl⟩
  · rw [get_financial_data]
    cases hT : env.topThrows <;> simp [hT]
  · intro fd h
    rw [get_financial_data] at h
    cases hT : env.topThrows
    · rw [hT] at h
      simp only [Bool.false_eq_true, if_false, Option.some.injEq] at h
      subst h
      exact ⟨rfl, rfl, rfl, rfl, rfl, rfl, rfl, rfl, rfl, rfl⟩
    · rw [hT] at h
      simp at h

/-- The fetch environment used to witness the bundle-isolation theorem:
the annual-financials sub-fetch succeeds with a one-cell table, the
annual-income-statement sub-fetch raises, every other sub-fetch returns
`None`. -/
def envW5 : FetchEnv :=
  { topThrows := false,
    financials := SubResult.returns (some { rows := [("Total Assets", [1])], cols := ["2023"] }),
    quarterly_financials := SubResult.returns none,
    income_stmt := SubResult.throws,
    quarterly_income_stmt := SubResult.returns none,
    balance_sheet := SubResult.returns none,
    quarterly_balance_sheet := SubResult.returns none,
    cash_flow := SubResult.returns none,
    quarterly_cash_flow := SubResult.returns none,
    actions := SubResult.returns none,
    info := ⟨none, none, none, none, none, none, none, none, none, none⟩ }

/-- The bundle `get_financial_data` builds for `envW5`. -/
def fdW5 : FinancialData :=
  { financials := { rows := [("Total Assets", [1])], cols := ["2023"] },
    quarterly_financials := emptyDF, income_stmt := emptyDF,
    quarterly_income_stmt := emptyDF, balance_sheet := emptyDF,
    quarterly_balance_sheet := emptyDF, cash_flow := emptyDF,
    quarterly_cash_flow := emptyDF, actions := emptyDF,
    info := ⟨none, none, none, none, none, none, none, none, none, none⟩ }

/-- C5 witness: one raising sub-fetch degrades to an empty table for its
own statement while a sibling statement keeps its fetched table. -/
theorem statement_bundle_isolation_witness :
    get_financial_data envW5 = some fdW5 ∧
    fdW5.income_stmt = emptyDF ∧
    fdW5.financials ≠ emptyDF := by
  have h := (statement_bundle_isolation envW5).2.1 fdW5 (by decide)
  exact ⟨by decide, h.2.2.1.trans rfl, by decide⟩

/-- Either a statement entry produced by `safe_get_data` is the empty
default table, or it is exactly the table the sub-fetch returned. -/
theorem safe_get_data_total (r : SubResult) :
    safe_get_data r emptyDF = emptyDF ∨
      r = SubResult.returns (some (safe_get_data r emptyDF)) := by
  cases r with
  | returns v => cases v <;> simp [safe_get_data]
  | throws => simp [safe_get_data]

/-- C10: in every non-null bundle each of the nine statement entries is a
table value — either the table its sub-fetch returned or the empty-table
default that both a raised exception and a `None` result are mapped to —
so downstream consumers can test emptiness without a null check. -/
theorem bundle_entries_never_null (env : FetchEnv) (fd : FinancialData)
    (h : get_financial_data env = some fd) :
    (fd.financials = emptyDF ∨
      env.financials = SubResult.returns (some fd.financials)) ∧
    (fd.quarterly_financials = emptyDF ∨
      env.quarterly_financials = SubResult.returns (some fd.quarterly_financials)) ∧
    (fd.income_stmt = emptyDF ∨
      env.income_stmt = SubResult.returns (some fd.income_stmt)) ∧
    (fd.quarterly_income_stmt = emptyDF ∨
      env.quarterly_income_stmt = SubResult.returns (some fd.quarterly_income_stmt)) ∧
    (fd.balance_sheet = emptyDF ∨
      env.balance_sheet = SubResult.returns (some fd.balance_sheet)) ∧
    (fd.quarterly_balance_sheet = emptyDF ∨
      env.quarterly_balance_sheet = SubResult.returns (some fd.quarterly_balance_sheet)) ∧
    (fd.cash_flow = emptyDF ∨
      env.cash_flow = SubResult.returns (some fd.cash_flow)) ∧
    (fd.quarterly_cash_flow = emptyDF ∨
      env.quarterly_cash_flow = SubResult.returns (some fd.quarterly_cash_flow)) ∧
    (fd.actions = emptyDF ∨
      env.actions = SubResult.returns (some fd.actions)) := by
  rw [get_financial_data] at h
  cases hT : env.topThrows
  · rw [hT] at h
    simp only [Bool.false_eq_true, if_false, Option.some.injEq] at h
    subst h
    exact ⟨safe_get_data_total _, safe_get_data_total _, safe_get_data_total _,
      safe_get_data_total _, safe_get_data_total _, safe_get_data_total _,
      safe_get_data_total _, safe_get_data_total _, safe_get_data_total _⟩
  · rw [hT] at h
    simp at h

/-- The fetch environment used to witness the never-null theorem: one
sub-fetch returns `None`, one raises, one succeeds. -/
def envW10 : FetchEnv :=
  { topThrows := false,
    financials := SubResult.returns none,
    quarterly_financials := SubResult.throws,
    income_stmt := SubResult.returns (some { rows := [("Net Income", [2])], cols := ["2022"] }),
    quarterly_income_stmt := SubResult.returns none,
    balance_sheet := SubResult.returns none,
    quarterly_balance_sheet := SubResult.returns none,
    cash_flow := SubResult.returns none,
    quarterly_cash_flow := SubResult.returns none,
    actions := SubResult.returns none,
    info := ⟨none, none, none, none, none, none, none, none, none, none⟩ }

/-- The bundle `get_financial_data` builds for `envW10`. -/
def fdW10 : FinancialData :=
  { financials := emptyDF, quarterly_financials := emptyDF,
    income_stmt := { rows := [("Net Income", [2])], cols := ["2022"] },
    quarterly_income_stmt := emptyDF, balance_sheet := emptyDF,
    quarterly_balance_sheet := emptyDF, cash_flow := emptyDF,
    quarterly_cash_flow := emptyDF, actions := emptyDF,
    info := ⟨none, none, none, none, none, none, none, none, none, none⟩ }

/-- C10 witness: the never-null invariant evaluated on a concrete
environment mixing a `None` result, an exception and a success. -/
theorem bundle_entries_never_null_witness :
    (fdW10.financials = emptyDF ∨
      envW10.financials = SubResult.returns (some fdW10.financials)) ∧
    (fdW10.quarterly_financials = emptyDF ∨
      envW10.quarterly_financials = SubResult.returns (some fdW10.quarterly_financials)) ∧
    (fdW10.income_stmt = emptyDF ∨
      envW10.income_stmt = SubResult.returns (some fdW10.income_stmt)) := by
  have h := bundle_entries_never_null envW10 fdW10 (by decide)
  exact ⟨h.1, h.2.1, h.2.2.1⟩

/-- C2 counterexample: a present but wrongly-typed `marketCap` (the string
`"many"`) makes the market-cap f-string raise, aborting the metrics panel:
the exception flag is set and the sibling `Beta` metric — which, being
absent, would render as `'N/A'` — is never rendered.  The claim that a
malformed field degrades to the marker instead of raising is false. -/
theorem metrics_malformed_counterexample :
    (display_key_metrics
      ⟨some (PyVal.str "many"), none, none, none, none,
       none, none, none, none, none⟩).2 = true ∧
    ("Beta", "N/A") ∉ (display_key_metrics
      ⟨some (PyVal.str "many"), none, none, none, none,
       none, none, none, none, none⟩).1 := by
  decide

/-- A metadata value that is either absent or a number — the only shapes
the formatter handles without raising. -/
def numericOrAbsent : Option PyVal → Bool
  | none => true
  | some (PyVal.num _) => true
  | some (PyVal.str _) => false
  | some PyVal.pynone => false

/-- Every metadata key `display_key_metrics` reads is absent or numeric. -/
def Info.wellTyped (i : Info) : Prop :=
  numericOrAbsent i.marketCap = true ∧
  numericOrAbsent i.trailingPE = true ∧
  numericOrAbsent i.currentPrice = true ∧
  numericOrAbsent i.regularMarketPrice = true ∧
  numericOrAbsent i.dividendYield = true ∧
  numericOrAbsent i.dayHigh = true ∧
  numericOrAbsent i.dayLow = true ∧
  numericOrAbsent i.bookValue = true ∧
  numericOrAbsent i.volume = true ∧
  numericOrAbsent i.beta = true

instance (i : Info) : Decidable i.wellTyped := by
  unfold Info.wellTyped
  infer_instance

/-- The string one metric block displays for an absent-or-numeric value:
the formatted number when present, the `'N/A'` marker when absent. -/
def metricNA (v : Option PyVal) (f : ℚ → String) : String :=
  match v with
  | some (PyVal.num q) => f q
  | _ => "N/A"

/-- The current-price block's displayed string: `currentPrice` with
`regularMarketPrice` as the nested fallback. -/
def metricNA2 (cp rp : Option PyVal) (f : ℚ → String) : String :=
  match cp with
  | some (PyVal.num q) => f q
  | some _ => "N/A"
  | none => metricNA rp f

/-- The day-range block's displayed string for absent-or-numeric
values. -/
def dayRangeNA (dh dl : Option PyVal) : String :=
  match dh, dl with
  | some (PyVal.num hi), some (PyVal.num lo) =>
    "$" ++ fmtFixed 2 lo ++ " - $" ++ fmtFixed 2 hi
  | _, _ => "N/A"

/-- An absent-or-numeric value is `none` or `some (num q)`. -/
theorem numericOrAbsent_elim {v : Option PyVal}
    (h : numericOrAbsent v = true) :
    v = none ∨ ∃ q, v = some (PyVal.num q) := by
  cases v with
  | none => exact Or.inl rfl
  | some pv =>
    cases pv with
    | num q => exact Or.inr ⟨q, rfl⟩
    | str s => simp [numericOrAbsent] at h
    | pynone => simp [numericOrAbsent] at h

/-- A metric block never raises on an absent-or-numeric value. -/
theorem fmtMetricNum_numericOrAbsent (v : Option PyVal) (f : ℚ → String)
    (h : numericOrAbsent v = true) :
    fmtMetricNum (pyGet v naVal) f = Except.ok (metricNA v f) := by
  rcases numericOrAbsent_elim h with rfl | ⟨q, rfl⟩ <;> rfl

/-- The current-price block never raises on absent-or-numeric values. -/
theorem fmtMetricNum_current (cp rp : Option PyVal) (f : ℚ → String)
    (h1 : numericOrAbsent cp = true) (h2 : numericOrAbsent rp = true) :
    fmtMetricNum (pyGet cp (pyGet rp naVal)) f =
      Except.ok (metricNA2 cp rp f) := by
  rcases numericOrAbsent_elim h1 with rfl | ⟨q, rfl⟩
  · rcases numericOrAbsent_elim h2 with rfl | ⟨q, rfl⟩ <;> rfl
  · rfl

/-- The day-range block never raises on absent-or-numeric values. -/
theorem dayRangeStep_numericOrAbsent (dh dl : Option PyVal)
    (h1 : numericOrAbsent dh = true) (h2 : numericOrAbsent dl = true) :
    dayRangeStep (pyGet dh naVal) (pyGet dl naVal) =
      Except.ok (dayRangeNA dh dl) := by
  rcases numericOrAbsent_elim h1 with rfl | ⟨q1, rfl⟩ <;>
    rcases numericOrAbsent_elim h2 with rfl | ⟨q2, rfl⟩ <;> rfl

/-- C2 (amended): when every metadata field the panel reads is absent or
numeric, formatting never raises: all eight metrics are rendered in order,
and every absent field — for the range metric, either bound — yields the
fixed `'N/A'` marker without blanking its siblings.  (A present but
wrongly-typed field, by contrast, raises and aborts the panel, as the
counterexample shows.) -/
theorem metrics_absent_degrade (i : Info) (h : i.wellTyped) :
    (display_key_metrics i).2 = false ∧
    (display_key_metrics i).1.map Prod.fst =
      ["Market Cap", "P/E Ratio", "Current Price", "Dividend Yield",
       "Day Range", "Book Value", "Volume", "Beta"] ∧
    (i.marketCap = none → ("Market Cap", "N/A") ∈ (display_key_metrics i).1) ∧
    (i.trailingPE = none → ("P/E Ratio", "N/A") ∈ (display_key_metrics i).1) ∧
    (i.currentPrice = none → i.regularMarketPrice = none →
      ("Current Price", "N/A") ∈ (display_key_metrics i).1) ∧
    (i.dividendYield = none →
      ("Dividend Yield", "N/A") ∈ (display_key_metrics i).1) ∧
    (i.dayHigh = none ∨ i.dayLow = none →
      ("Day Range", "N/A") ∈ (display_key_metrics i).1) ∧
    (i.bookValue = none → ("Book Value", "N/A") ∈ (display_key_metrics i).1) ∧
    (i.volume = none → ("Volume", "N/A") ∈ (display_key_metrics i).1) ∧
    (i.beta = none → ("Beta", "N/A") ∈ (display_key_metrics i).1) := by
  obtain ⟨h1, h2, h3, h4, h5, h6, h7, h8, h9, h10⟩ := h
  have e1 := fmtMetricNum_numericOrAbsent i.marketCap
    (fun q => "$" ++ fmtGroupFixed 0 q) h1
  have e2 := fmtMetricNum_numericOrAbsent i.trailingPE
    (fun q => fmtFixed 2 q) h2
  have e3 := fmtMetricNum_current i.currentPrice i.regularMarketPrice
    (fun q => "$" ++ fmtFixed 2 q) h3 h4
  have e4 := fmtMetricNum_numericOrAbsent i.dividendYield
    (fun q => fmtFixed 2 (q * 100) ++ "%") h5
  have e5 := dayRangeStep_numericOrAbsent i.dayHigh i.dayLow h6 h7
  have e6 := fmtMetricNum_numericOrAbsent i.bookValue
    (fun q => "$" ++ fmtFixed 2 q) h8
  have e7 := fmtMetricNum_numericOrAbsent i.volume
    (fun q => fmtThousands q) h9
  have e8 := fmtMetricNum_numericOrAbsent i.beta
    (fun q => fmtFixed 2 q) h10
  have hshow : display_key_metrics i =
      ([("Market Cap", metricNA i.marketCap (fun q => "$" ++ fmtGroupFixed 0 q)),
        ("P/E Ratio", metricNA i.trailingPE (fun q => fmtFixed 2 q)),
        ("Current Price", metricNA2 i.currentPrice i.regularMarketPrice
          (fun q => "$" ++ fmtFixed 2 q)),
        ("Dividend Yield", metricNA i.dividendYield
          (fun q => fmtFixed 2 (q * 100) ++ "%")),
        ("Day Range", dayRangeNA i.dayHigh i.dayLow),
        ("Book Value", metricNA i.bookValue (fun q => "$" ++ fmtFixed 2 q)),
        ("Volume", metricNA i.volume (fun q => fmtThousands q)),
        ("Beta", metricNA i.beta (fun q => fmtFixed 2 q))], false) := by
    rw [display_key_metrics, e1, e2, e3, e4, e5, e6, e7, e8]
    rfl
  rw [hshow]
  refine ⟨rfl, rfl, ?_, ?_, ?_, ?_, ?_, ?_, ?_, ?_⟩
  · intro hn; simp [hn, metricNA]
  · intro hn; simp [hn, metricNA]
  · intro hcp hrp; simp [hcp, hrp, metricNA2, metricNA]
  · intro hn; simp [hn, metricNA]
  · rintro (hn | hn)
    · simp [hn, dayRangeNA]
    · rcases numericOrAbsent_elim h6 with h' | ⟨q, h'⟩ <;>
        simp [hn, h', dayRangeNA]
  · intro hn; simp [hn, metricNA]
  · intro hn; simp [hn, metricNA]
  · intro hn; simp [hn, metricNA]

/-- C2 witness: the metrics panel evaluated on a metadata record with a
numeric market cap and every other field absent. -/
theorem metrics_absent_degrade_witness :
    (display_key_metrics
      ⟨some (PyVal.num 5000), none, none, none, none,
       none, none, none, none, none⟩).2 = false ∧
    ("Beta", "N/A") ∈ (display_key_metrics
      ⟨some (PyVal.num 5000), none, none, none, none,
       none, none, none, none, none⟩).1 := by
  have h := metrics_absent_degrade
    ⟨some (PyVal.num 5000), none, none, none, none,
     none, none, none, none, none⟩ (by decide)
  exact ⟨h.1, h.2.2.2.2.2.2.2.2.2 rfl⟩

/-- C6 counterexample: with the ticker URL parameter absent, the view
state initializes the selection to `"GOOGL"` — the default hard-coded in
`get_query_params` — not to `"AAPL"` as the claim states. -/
theorem viewstate_absent_ticker_counterexample :
    (initViewState sp500FallbackTickers (Except.ok (none, none))).1 = "GOOGL" ∧
    (initViewState sp500FallbackTickers (Except.ok (none, none))).1 ≠ "AAPL" := by
  decide

/-- `initViewState` on successfully read parameters, written out. -/
theorem initViewState_eval (univ : List String) (t p : String) :
    initViewState univ (Except.ok (some t, some p)) =
      (univ.getD (tickerIndexOf univ (if univ.contains t then t else "AAPL")) "",
       tickerIndexOf univ (if univ.contains t then t else "AAPL"),
       (periodOptions.getD (periodIndexOf p) ("", "")).2, periodIndexOf p) := rfl

/-- A period code outside the six supported ones resolves to selector
index 3 ("1 Year"). -/
theorem periodIndexOf_not_mem {p : String}
    (h : p ∉ ["1mo", "3mo", "6mo", "1y", "2y", "5y"]) : periodIndexOf p = 3 := by
  simp only [List.mem_cons, List.not_mem_nil, or_false, not_or] at h
  obtain ⟨h1, h2, h3, h4, h5, h6⟩ := h
  simp [periodIndexOf, periodOptions, List.findIdx?_cons, beq_iff_eq,
    Ne.symm h1, Ne.symm h2, Ne.symm h3, Ne.symm h4, Ne.symm h5, Ne.symm h6]

/-- C6 (amended): view-state initialization never raises, and resolves as
the code does: an absent ticker parameter defaults to `"GOOGL"` (which is
in the universe, so it is kept); a present ticker outside the universe
falls back to `"AAPL"` at selector index 0; an absent or invalid period
falls back to `"1y"` at selector index 3; and a failure reading the
parameters themselves falls back to `("AAPL", "1y")`. -/
theorem viewstate_fallbacks (t p : String) :
    (initViewState sp500FallbackTickers (Except.ok (none, some p))).1 = "GOOGL" ∧
    (t ∉ sp500FallbackTickers →
      (initViewState sp500FallbackTickers (Except.ok (some t, some p))).1 = "AAPL" ∧
      (initViewState sp500FallbackTickers (Except.ok (some t, some p))).2.1 = 0) ∧
    (p ∉ ["1mo", "3mo", "6mo", "1y", "2y", "5y"] →
      (initViewState sp500FallbackTickers (Except.ok (some t, some p))).2.2 =
        ("1y", 3)) ∧
    (initViewState sp500FallbackTickers (Except.ok (some t, none))).2.2 =
      ("1y", 3) ∧
    (initViewState sp500FallbackTickers (Except.ok (none, none))).2.2 =
      ("1y", 3) ∧
    initViewState sp500FallbackTickers (Except.error ()) = ("AAPL", 0, "1y", 3) := by
  refine ⟨rfl, ?_, ?_, rfl, rfl, by decide⟩
  · intro hmem
    have hc : sp500FallbackTickers.contains t = false :=
      contains_eq_false_of_not_mem hmem
    constructor
    · rw [initViewState_eval, hc]
      rfl
    · rw [initViewState_eval, hc]
      rfl
  · intro hp
    have h3 := periodIndexOf_not_mem hp
    rw [initViewState_eval, h3]
    rfl

/-- C6 witness: a ticker outside the universe together with an unsupported
period code falls back to `"AAPL"` at index 0 and `"1y"` at index 3. -/
theorem viewstate_fallbacks_witness :
    (initViewState sp500FallbackTickers (Except.ok (some "ZZZZ", some "7d"))).1
      = "AAPL" ∧
    (initViewState sp500FallbackTickers (Except.ok (some "ZZZZ", some "7d"))).2.1
      = 0 ∧
    (initViewState sp500FallbackTickers (Except.ok (some "ZZZZ", some "7d"))).2.2
      = ("1y", 3) := by
  have h := viewstate_fallbacks "ZZZZ" "7d"
  exact ⟨(h.2.1 (by decide)).1, (h.2.1 (by decide)).2, h.2.2.1 (by decide)⟩
